import Mathlib

/-!
Verification of the XRT `DeviceTraceOffload` engine
(`src/runtime_src/xdp/profile/device/device_trace_offload.cpp`).

The C++ class is embedded as a Lean structure holding the data members of
`DeviceTraceOffload` together with observation counters for the external
effects the spec talks about (warning messages, user marker events, batches
handed to the trace sink).  Member functions become pure state transformers;
per-cycle inputs coming from the device (the TS2MM word counter, success of
`syncTraceBuf`, the batches a FIFO read returns) are explicit arguments.
All machine integers in the source are `uint64_t`/`uint32_t`; they are
modelled as `Nat`.  The subtractions in the source never underflow in the
reachable states considered by the theorems (the word counter is monotone
and the window invariant gives `rollover*alloc + window_end ≤ bytes
written`), so `Nat` truncated subtraction agrees with the machine
arithmetic there.
-/

namespace XRT

/-- Thread status enumeration of the offload controller. -/
inductive OffloadThreadStatus
  | IDLE
  | RUNNING
  | STOPPING
  | STOPPED
deriving DecidableEq

/-- Worker mode chosen at start: trace offload or clock-training only. -/
inductive OffloadThreadType
  | TRACE
  | CLOCK_TRAIN
deriving DecidableEq

/-- Trace packet size in bytes.  The constant is defined in the class
header (not part of the sources here); the source itself fixes the value:
`config_s2mm_reader` logs the byte total as `wordCount * 8` on the same
quantity it computes as `wordCount * TRACE_PACKET_SIZE`. -/
def TRACE_PACKET_SIZE : Nat := 8

/-- Minimum number of bytes required before a non-forced stream read
proceeds.  The constant lives in the class header; the source comment in
`read_trace_s2mm` states it: "Don't read data if there's less than 512B
trace". -/
def TS2MM_MIN_READ_SIZE : Nat := 512

/-- State of one `DeviceTraceOffload` object, plus observation counters
for external effects.  `s2mm_sink` records, in order, the windows
`(offset, nBytes)` parsed and handed to the trace logger by
`read_trace_s2mm`; `fifo_sink` records the packet batches handed over by
`read_trace_fifo`; `warn_count` / `marker_count` count the overrun warning
message and the user marker event; `clk_train_count` counts calls to the
device clockTraining operation; `spawn_count` counts worker threads
spawned by `start_offload`. -/
structure DeviceTraceOffload where
  status : OffloadThreadStatus := OffloadThreadStatus.IDLE
  spawn_count : Nat := 0
  sleep_interval_ms : Nat
  m_trbuf_alloc_sz : Nat
  m_trbuf : Nat := 0
  m_trbuf_sz : Nat := 0
  m_trbuf_offset : Nat := 0
  m_wordcount_old : Nat := 0
  m_rollover_count : Nat := 0
  m_use_circ_buf : Bool := false
  m_circ_buf_cur_rate : Nat := 0
  m_circ_buf_min_rate : Nat
  m_initialized : Bool := false
  m_trbuf_full : Bool := false
  trbuf_offload_done : Bool := false
  m_force_clk_train : Bool := true
  m_prev_clk_train_time : Int
  clk_train_count : Nat := 0
  warn_count : Nat := 0
  marker_count : Nat := 0
  s2mm_sink : List (Nat × Nat) := []
  fifo_sink : List (List Nat) := []
deriving DecidableEq

/-- Constructor `DeviceTraceOffload::DeviceTraceOffload`: records the
sleep interval and the allocation size and the construction time.
Modelled from the spec for the member defaults declared in the class
header (header not among the sources): the force flag of clock training
starts set ("a one-shot force flag set at session start"), the status
starts `IDLE`, all counters and latches start cleared. -/
def mkOffload (sleep_interval_ms trbuf_sz min_rate : Nat) (t0 : Int) :
    DeviceTraceOffload :=
  { sleep_interval_ms := sleep_interval_ms
    m_trbuf_alloc_sz := trbuf_sz
    m_circ_buf_min_rate := min_rate
    m_prev_clk_train_time := t0 }

/-- `DeviceTraceOffload::start_offload`: no-op while RUNNING, otherwise
sets status to RUNNING and spawns one worker thread of the given type. -/
def start_offload (s : DeviceTraceOffload) (ty : OffloadThreadType) :
    DeviceTraceOffload :=
  if s.status = OffloadThreadStatus.RUNNING then s
  else
    { s with status := OffloadThreadStatus.RUNNING
             spawn_count := s.spawn_count + 1 }

/-- `DeviceTraceOffload::stop_offload`: returns early when STOPPED,
otherwise sets status to STOPPING. -/
def stop_offload (s : DeviceTraceOffload) : DeviceTraceOffload :=
  if s.status = OffloadThreadStatus.STOPPED then s
  else { s with status := OffloadThreadStatus.STOPPING }

/-- `DeviceTraceOffload::offload_finished`: returns early when STOPPED,
otherwise sets status to STOPPED. -/
def offload_finished (s : DeviceTraceOffload) : DeviceTraceOffload :=
  if s.status = OffloadThreadStatus.STOPPED then s
  else { s with status := OffloadThreadStatus.STOPPED }

/-- `DeviceTraceOffload::should_continue`: the worker loops while the
status is RUNNING. -/
def should_continue (s : DeviceTraceOffload) : Bool :=
  s.status = OffloadThreadStatus.RUNNING

/-- `DeviceTraceOffload::train_clock`: computes the elapsed milliseconds
since the previous training; when 500 ms have passed or the one-shot
force flag is set, triggers device clock training and records the new
timestamp; the force flag is cleared unconditionally at the end. -/
def train_clock (s : DeviceTraceOffload) (now : Int) : DeviceTraceOffload :=
  let milliseconds : Int := now - s.m_prev_clk_train_time
  let enough_time_passed : Bool := decide (500 ≤ milliseconds)
  let s1 :=
    if enough_time_passed || s.m_force_clk_train then
      { s with clk_train_count := s.clk_train_count + 1
               m_prev_clk_train_time := now }
    else s
  { s1 with m_force_clk_train := false }

/-- Overrun test of `config_s2mm_reader`: the DMA has written more than
one full buffer beyond what has been read ("Offload cannot keep up with
the DMA"). -/
def s2mm_overrun (bytes_written bytes_read alloc : Nat) : Bool :=
  decide (bytes_read + alloc < bytes_written)

/-- `DeviceTraceOffload::config_s2mm_reader`: returns early once the
offload-done latch is set; on overrun, clips the window start to the old
end, latches done, emits the warning and the user marker, requests stop
and reports "do not read"; otherwise advances the window start to the old
end, handling the exact-end case (single-pass: latch done and stop;
circular: bump the rollover count and wrap to zero), and sets the new
window end to `bytes_written - rollover*alloc` clipped at the allocation
size. -/
def config_s2mm_reader (s : DeviceTraceOffload) (wordCount : Nat) :
    Bool × DeviceTraceOffload :=
  if s.trbuf_offload_done then (false, s)
  else
    let bytes_written := wordCount * TRACE_PACKET_SIZE
    let bytes_read := s.m_rollover_count * s.m_trbuf_alloc_sz + s.m_trbuf_sz
    if s2mm_overrun bytes_written bytes_read s.m_trbuf_alloc_sz then
      (false, stop_offload
        { s with m_trbuf_offset := s.m_trbuf_sz
                 trbuf_offload_done := true
                 warn_count := s.warn_count + 1
                 marker_count := s.marker_count + 1 })
    else
      let s1 := { s with m_trbuf_offset := s.m_trbuf_sz }
      if s1.m_trbuf_offset = s1.m_trbuf_alloc_sz then
        if !s1.m_use_circ_buf then
          (false, stop_offload { s1 with trbuf_offload_done := true })
        else
          let s2 := { s1 with m_rollover_count := s1.m_rollover_count + 1
                              m_trbuf_offset := 0 }
          let sz := bytes_written - s2.m_rollover_count * s2.m_trbuf_alloc_sz
          (true, { s2 with m_trbuf_sz := min sz s2.m_trbuf_alloc_sz })
      else
        let sz := bytes_written - s1.m_rollover_count * s1.m_trbuf_alloc_sz
        (true, { s1 with m_trbuf_sz := min sz s1.m_trbuf_alloc_sz })

/-- `DeviceTraceOffload::read_trace_s2mm`: per-cycle inputs are the
current device word counter (`dev_intf->getWordCountTs2mm()`) and whether
`syncTraceBuf` returns a valid host pointer.  A non-forced cycle with
fewer than `TS2MM_MIN_READ_SIZE` new bytes returns with no state change;
otherwise the old word count is saved, the window is configured, the
window `[m_trbuf_offset, m_trbuf_sz)` is synced and, on success, parsed
and handed to the logger; finally, in single-pass mode a window ending at
the allocation size sets `m_trbuf_full`. -/
def read_trace_s2mm (s : DeviceTraceOffload) (force : Bool)
    (wordcount : Nat) (sync_ok : Bool) : DeviceTraceOffload :=
  let bytes_written := (wordcount - s.m_wordcount_old) * TRACE_PACKET_SIZE
  if !force && bytes_written < TS2MM_MIN_READ_SIZE then s
  else
    let s1 := { s with m_wordcount_old := wordcount }
    match config_s2mm_reader s1 wordcount with
    | (false, s2) => s2
    | (true, s2) =>
      let nBytes := s2.m_trbuf_sz - s2.m_trbuf_offset
      if !sync_ok then s2
      else
        let s3 := { s2 with
          s2mm_sink := s2.s2mm_sink ++ [(s2.m_trbuf_offset, nBytes)] }
        if s3.m_trbuf_sz = s3.m_trbuf_alloc_sz && !s3.m_use_circ_buf then
          { s3 with m_trbuf_full := true }
        else s3

/-- Runs a sequence of stream read cycles; each entry supplies one
cycle's inputs `(force, wordcount, sync_ok)`. -/
def run_s2mm_cycles (s : DeviceTraceOffload) :
    List (Bool × Nat × Bool) → DeviceTraceOffload
  | [] => s
  | e :: rest => run_s2mm_cycles (read_trace_s2mm s e.1 e.2.1 e.2.2) rest

/-- Drain loop of `DeviceTraceOffload::read_trace_fifo` (non-Windows
form): the device is modelled as the list of batches successive
`readTrace` calls return (an exhausted device returns the empty batch).
Each iteration reads one batch, hands it to the logger and accumulates
its packet count; the loop ends after the first empty batch.  Returns
the cycle packet count, the batches handed to the logger in order, and
the batches left undelivered by the device. -/
def read_trace_fifo_drain :
    List (List Nat) → Nat × List (List Nat) × List (List Nat)
  | [] => (0, [[]], [])
  | b :: rest =>
    if b.length = 0 then (0, [b], rest)
    else
      let r := read_trace_fifo_drain rest
      (b.length + r.1, b :: r.2.1, r.2.2)

/-- `DeviceTraceOffload::read_trace_fifo`: returns immediately once
`m_trbuf_full` is set; otherwise drains the device to the first empty
batch, handing every batch to the logger, then compares the cycle packet
count with the rated FIFO capacity from the monitor properties and
latches `m_trbuf_full` when the count reaches it.  The `force` argument
of the source is ignored by the body.  Returns the new state and the
batches the device still holds. -/
def read_trace_fifo (s : DeviceTraceOffload) (device : List (List Nat))
    (fifo_size : Nat) : DeviceTraceOffload × List (List Nat) :=
  if s.m_trbuf_full then (s, device)
  else
    let r := read_trace_fifo_drain device
    let s1 := { s with fifo_sink := s.fifo_sink ++ r.2.1 }
    let s2 := if fifo_size ≤ r.1 then { s1 with m_trbuf_full := true } else s1
    (s2, r.2.2)

/-- Runs a sequence of FIFO read cycles; each entry supplies the device
batches available that cycle and the rated FIFO capacity. -/
def run_fifo_cycles (s : DeviceTraceOffload) :
    List (List (List Nat) × Nat) → DeviceTraceOffload
  | [] => s
  | e :: rest => run_fifo_cycles (read_trace_fifo s e.1 e.2).1 rest

/-- `DeviceTraceOffload::reset_s2mm`: frees the device buffer when one is
held (the device-side `initTS2MM`/`resetTS2MM`/`freeTraceBuf` calls have
no footprint in this state beyond clearing the handle). -/
def reset_s2mm (s : DeviceTraceOffload) : DeviceTraceOffload :=
  if s.m_trbuf = 0 then s else { s with m_trbuf := 0 }

/-- `DeviceTraceOffload::init_s2mm`: resets a leftover buffer, fails on a
zero allocation size, records the result of `allocTraceBuf` (`0` models a
null handle) and fails when it is null; then enables circular mode when
the transport supports it and it was requested — subject to the rate
check `m_trbuf_alloc_sz * (1000 / sleep_interval_ms) ≥ m_circ_buf_min_rate`
when the sleep interval is nonzero, and unconditionally when the sleep
interval is zero. -/
def init_s2mm (s : DeviceTraceOffload) (circ_buf : Bool)
    (alloc_result : Nat) (supportsCircBuf : Bool) :
    Bool × DeviceTraceOffload :=
  let s0 := if s.m_trbuf ≠ 0 then reset_s2mm s else s
  if s0.m_trbuf_alloc_sz = 0 then (false, s0)
  else
    let s1 := { s0 with m_trbuf := alloc_result }
    if s1.m_trbuf = 0 then (false, s1)
    else
      let s2 :=
        if supportsCircBuf && circ_buf then
          if s1.sleep_interval_ms ≠ 0 then
            let rate := s1.m_trbuf_alloc_sz * (1000 / s1.sleep_interval_ms)
            let s15 := { s1 with m_circ_buf_cur_rate := rate }
            if s15.m_circ_buf_min_rate ≤ rate then
              { s15 with m_use_circ_buf := true }
            else s15
          else { s1 with m_use_circ_buf := true }
        else s1
      (true, s2)

/-- `DeviceTraceOffload::read_trace_init`: clears the full and done
latches, then initializes the selected transport: stream transport via
`init_s2mm` (whose success becomes `m_initialized`), FIFO transport needs
no setup, and a device with neither transport leaves the session
uninitialized.  The boolean result is returned synchronously to the
caller. -/
def read_trace_init (s : DeviceTraceOffload) (circ_buf : Bool)
    (has_ts2mm has_fifo : Bool) (alloc_result : Nat)
    (supportsCircBuf : Bool) : Bool × DeviceTraceOffload :=
  let s0 := { s with m_trbuf_full := false, trbuf_offload_done := false }
  if has_ts2mm then
    let r := init_s2mm s0 circ_buf alloc_result supportsCircBuf
    (r.1, { r.2 with m_initialized := r.1 })
  else if has_fifo then (true, { s0 with m_initialized := true })
  else (false, { s0 with m_initialized := false })

/-- Stream-path window invariant (claim C3): the window end `m_trbuf_sz`
never exceeds the allocation size, the window start `m_trbuf_offset`
never exceeds the window end — together these say
`offset + size ≤ allocation`, since the transferred size is
`m_trbuf_sz - m_trbuf_offset` — and the bytes accounted as read
(`rollover*allocation + window end`) never exceed the bytes the saved
word count says were written. -/
def s2mmInv (s : DeviceTraceOffload) : Prop :=
  s.m_trbuf_sz ≤ s.m_trbuf_alloc_sz ∧
  s.m_trbuf_offset ≤ s.m_trbuf_sz ∧
  s.m_rollover_count * s.m_trbuf_alloc_sz + s.m_trbuf_sz ≤
    s.m_wordcount_old * TRACE_PACKET_SIZE

/-! ## Helper lemmas -/

/-- Once the offload-done latch is set, a stream read cycle delivers
nothing, emits nothing and keeps the latch. -/
lemma done_cycle (s : DeviceTraceOffload) (h : s.trbuf_offload_done = true)
    (f : Bool) (wc : Nat) (ok : Bool) :
    (read_trace_s2mm s f wc ok).trbuf_offload_done = true ∧
    (read_trace_s2mm s f wc ok).s2mm_sink = s.s2mm_sink ∧
    (read_trace_s2mm s f wc ok).warn_count = s.warn_count ∧
    (read_trace_s2mm s f wc ok).status = s.status := by
  unfold read_trace_s2mm config_s2mm_reader
  split <;> simp_all <;> split <;> simp_all

/-- Once the offload-done latch is set, no sequence of further stream
read cycles delivers anything or emits warnings. -/
lemma done_run (l : List (Bool × Nat × Bool)) :
    ∀ s : DeviceTraceOffload, s.trbuf_offload_done = true →
    (run_s2mm_cycles s l).trbuf_offload_done = true ∧
    (run_s2mm_cycles s l).s2mm_sink = s.s2mm_sink ∧
    (run_s2mm_cycles s l).warn_count = s.warn_count := by
  induction l with
  | nil => intro s h; exact ⟨h, rfl, rfl⟩
  | cons e rest ih =>
    intro s h
    have hc := done_cycle s h e.1 e.2.1 e.2.2
    have := ih (read_trace_s2mm s e.1 e.2.1 e.2.2) hc.1
    exact ⟨this.1, by rw [run_s2mm_cycles, this.2.1, hc.2.1],
           by rw [run_s2mm_cycles, this.2.2, hc.2.2.1]⟩

/-- When `config_s2mm_reader` answers "read", the state it returns has a
clear done latch and unchanged sink, status, warning count, rollover
count and word count; only the window moved. -/
lemma config_true_fields (s : DeviceTraceOffload) (wc : Nat)
    (h : (config_s2mm_reader s wc).1 = true) :
    (config_s2mm_reader s wc).2.trbuf_offload_done = false ∧
    (config_s2mm_reader s wc).2.s2mm_sink = s.s2mm_sink ∧
    (config_s2mm_reader s wc).2.status = s.status ∧
    (config_s2mm_reader s wc).2.warn_count = s.warn_count ∧
    (config_s2mm_reader s wc).2.m_wordcount_old = s.m_wordcount_old ∧
    (config_s2mm_reader s wc).2.m_trbuf_alloc_sz = s.m_trbuf_alloc_sz ∧
    (config_s2mm_reader s wc).2.m_use_circ_buf = s.m_use_circ_buf ∧
    s.trbuf_offload_done = false := by
  unfold config_s2mm_reader at h ⊢
  simp only [] at h ⊢
  split_ifs at h ⊢ <;> simp_all

/-! ## Claim theorems -/

/-- Claim C1, counterexample: the claim states that `stop_offload`
leaves the status unchanged in state IDLE; on the code, calling
`stop_offload` on a freshly constructed (IDLE) session sets the status
to STOPPING. -/
theorem stop_from_idle_counterexample :
    (mkOffload 100 1024 0 0).status = OffloadThreadStatus.IDLE ∧
    (stop_offload (mkOffload 100 1024 0 0)).status =
      OffloadThreadStatus.STOPPING := by decide

/-- Claim C1 (amended): `start_offload` is a no-op while RUNNING and
from every other status (IDLE, STOPPING or STOPPED) sets the status to
RUNNING and spawns a worker; `stop_offload` is a no-op when STOPPED and
from every other status (IDLE, RUNNING or STOPPING) sets the status to
STOPPING.  Hence the reachable transitions are
IDLE/STOPPING/STOPPED → RUNNING (start) and
IDLE/RUNNING/STOPPING → STOPPING (stop). -/
theorem start_stop_transitions (s : DeviceTraceOffload)
    (ty : OffloadThreadType) :
    (start_offload s ty).status = OffloadThreadStatus.RUNNING ∧
    (s.status = OffloadThreadStatus.RUNNING → start_offload s ty = s) ∧
    (s.status ≠ OffloadThreadStatus.RUNNING →
      (start_offload s ty).spawn_count = s.spawn_count + 1) ∧
    (s.status ≠ OffloadThreadStatus.STOPPED →
      (stop_offload s).status = OffloadThreadStatus.STOPPING) ∧
    (s.status = OffloadThreadStatus.STOPPED → stop_offload s = s) := by
  unfold start_offload stop_offload
  refine ⟨?_, ?_, ?_, ?_, ?_⟩ <;> intros <;> split <;> simp_all

/-- Claim C1, witness for the amended theorem at a concrete state. -/
theorem start_stop_transitions_witness :
    (stop_offload (mkOffload 100 1024 0 0)).status =
      OffloadThreadStatus.STOPPING :=
  (start_stop_transitions (mkOffload 100 1024 0 0)
    OffloadThreadType.TRACE).2.2.2.1 (by decide)

/-- Claim C6: one `train_clock` call triggers device clock training iff
500 ms have elapsed since the recorded training time or the one-shot
force flag is set; a triggering call records the new timestamp; the
force flag is false after every call; absent the force flag a triggering
call implies 500 ms really elapsed (so training fires at most once in
any 500 ms window); and on a freshly constructed session the very first
call trains regardless of the elapsed time. -/
theorem train_clock_spec (s : DeviceTraceOffload) (now : Int) :
    ((train_clock s now).clk_train_count = s.clk_train_count + 1 ↔
      (500 ≤ now - s.m_prev_clk_train_time ∨ s.m_force_clk_train = true)) ∧
    ((500 ≤ now - s.m_prev_clk_train_time ∨ s.m_force_clk_train = true) →
      (train_clock s now).m_prev_clk_train_time = now) ∧
    (¬ (500 ≤ now - s.m_prev_clk_train_time ∨ s.m_force_clk_train = true) →
      (train_clock s now).m_prev_clk_train_time = s.m_prev_clk_train_time) ∧
    (train_clock s now).m_force_clk_train = false ∧
    (s.m_force_clk_train = false →
      (train_clock s now).clk_train_count = s.clk_train_count + 1 →
      500 ≤ now - s.m_prev_clk_train_time) ∧
    (∀ (sl sz mr : Nat) (t0 n : Int),
      (train_clock (mkOffload sl sz mr t0) n).clk_train_count = 1) := by
  unfold train_clock
  by_cases hf : s.m_force_clk_train <;>
    by_cases ht : 500 ≤ now - s.m_prev_clk_train_time <;>
      simp [hf, ht, mkOffload]

/-- Claim C6, witness: on a fresh session at construction time 0, a call
at time 0 (no elapsed time) still trains, via the force flag. -/
theorem train_clock_spec_witness :
    (500 ≤ (0 : Int) - (mkOffload 100 1024 0 0).m_prev_clk_train_time ∨
      (mkOffload 100 1024 0 0).m_force_clk_train = true) ∧
    (train_clock (mkOffload 100 1024 0 0) 0).m_prev_clk_train_time = 0 :=
  ⟨Or.inr (by decide),
    (train_clock_spec (mkOffload 100 1024 0 0) 0).2.1 (Or.inr (by decide))⟩

/-- An FIFO read cycle on a session whose full latch is set changes
nothing: no device batch is consumed and no batch reaches the sink. -/
lemma fifo_full_noop (s : DeviceTraceOffload) (h : s.m_trbuf_full = true)
    (device : List (List Nat)) (fifo_size : Nat) :
    read_trace_fifo s device fifo_size = (s, device) := by
  unfold read_trace_fifo
  simp [h]

/-- Once the FIFO full latch is set, any sequence of further read cycles
leaves the session unchanged. -/
lemma fifo_full_run (l : List (List (List Nat) × Nat)) :
    ∀ s : DeviceTraceOffload, s.m_trbuf_full = true →
    run_fifo_cycles s l = s := by
  induction l with
  | nil => intro s _; rfl
  | cons e rest ih =>
    intro s h
    rw [run_fifo_cycles, fifo_full_noop s h e.1 e.2]
    exact ih s h

/-- Claim C5: a FIFO read cycle whose drained packet count reaches the
rated FIFO capacity sets the sticky full latch; once the latch is set, a
read cycle performs no device read and delivers nothing to the sink (the
state and the device content are untouched), and the same holds across
any number of subsequent cycles — the body of `read_trace_fifo` ignores
its force argument, so this covers the final forced read as well. -/
theorem fifo_full_latch_spec (s : DeviceTraceOffload)
    (device : List (List Nat)) (fifo_size : Nat) :
    (s.m_trbuf_full = false → fifo_size ≤ (read_trace_fifo_drain device).1 →
      (read_trace_fifo s device fifo_size).1.m_trbuf_full = true) ∧
    (s.m_trbuf_full = true →
      read_trace_fifo s device fifo_size = (s, device)) ∧
    (s.m_trbuf_full = true →
      ∀ l : List (List (List Nat) × Nat), run_fifo_cycles s l = s) := by
  refine ⟨?_, ?_, ?_⟩
  · intro h hcap
    unfold read_trace_fifo
    simp [h, hcap]
  · intro h; exact fifo_full_noop s h device fifo_size
  · intro h l; exact fifo_full_run l s h

/-- Claim C5, witness: a drain of 3 packets against a rated capacity of
3 sets the latch. -/
theorem fifo_full_latch_spec_witness :
    (read_trace_fifo (mkOffload 100 1024 0 0) [[1, 2], [3]] 3).1.m_trbuf_full
      = true :=
  (fifo_full_latch_spec (mkOffload 100 1024 0 0) [[1, 2], [3]] 3).1
    (by decide) (by decide)

/-- Claim C10, counterexample: with a zero poll interval the rate
estimate `allocation_size * (1000 / poll_interval_ms)` is below the
minimum rate (it is `1024 * (1000 / 0) = 0 < 1` with Nat division), yet
`init_s2mm` enables circular mode — the code skips the rate check
entirely when `sleep_interval_ms == 0`. -/
theorem init_circ_zero_interval_counterexample :
    (mkOffload 0 1024 1 0).m_trbuf_alloc_sz *
        (1000 / (mkOffload 0 1024 1 0).sleep_interval_ms) <
      (mkOffload 0 1024 1 0).m_circ_buf_min_rate ∧
    (init_s2mm (mkOffload 0 1024 1 0) true 1 true).2.m_use_circ_buf
      = true := by decide

/-- Claim C10 (amended): on a successful stream initialization of a
fresh session, circular mode is enabled iff the transport supports
circular buffering, circular buffering was requested, and either the
poll interval is zero (rate check skipped) or the sustained rate
estimate `allocation_size * (1000 / poll_interval_ms)` meets the minimum
required rate; whenever the support or (with a nonzero poll interval)
the rate condition fails, the session stays in single-pass mode. -/
theorem init_circ_mode_iff (s : DeviceTraceOffload) (circ_buf : Bool)
    (alloc_result : Nat) (supports : Bool)
    (h0 : s.m_use_circ_buf = false) (h1 : s.m_trbuf_alloc_sz ≠ 0)
    (h2 : alloc_result ≠ 0) :
    (init_s2mm s circ_buf alloc_result supports).1 = true ∧
    ((init_s2mm s circ_buf alloc_result supports).2.m_use_circ_buf = true ↔
      supports = true ∧ circ_buf = true ∧
        (s.sleep_interval_ms = 0 ∨
          s.m_circ_buf_min_rate ≤
            s.m_trbuf_alloc_sz * (1000 / s.sleep_interval_ms))) := by
  unfold init_s2mm reset_s2mm
  simp only [] at *
  split_ifs <;> simp_all

/-- Claim C10, witness for the amended theorem: 1 MiB buffer polled
every 100 ms supports a required minimum rate of 1000 bytes per second,
so circular mode turns on. -/
theorem init_circ_mode_iff_witness :
    (init_s2mm (mkOffload 100 1048576 1000 0) true 7 true).2.m_use_circ_buf
      = true :=
  ((init_circ_mode_iff (mkOffload 100 1048576 1000 0) true 7 true
      (by decide) (by decide) (by decide)).2).mpr (by decide)

/-- Claim C4, counterexample: with a zero allocation size, starting the
session sets the status to RUNNING (the worker is spawned first and only
then runs `read_trace_init`, which fails), so on the code an
initialization failure does not keep the session out of RUNNING. -/
theorem init_failure_running_counterexample :
    (read_trace_init
        (start_offload (mkOffload 100 0 5 0) OffloadThreadType.TRACE)
        true true false 0 true).1 = false ∧
    (read_trace_init
        (start_offload (mkOffload 100 0 5 0) OffloadThreadType.TRACE)
        true true false 0 true).2.status = OffloadThreadStatus.RUNNING := by
  decide

/-- Claim C4 (amended): on a stream transport, a zero allocation size or
a failed device buffer allocation makes `read_trace_init` report the
failure synchronously to its caller (it returns false) and leaves the
session uninitialized, and the call does not change the session status;
but `start_offload` itself never consults the initialization state, so
keeping a failed session out of RUNNING is up to the caller, who must
check the result before requesting a start. -/
theorem init_failure_sync (s : DeviceTraceOffload) (circ supports : Bool)
    (alloc_result : Nat)
    (hfail : s.m_trbuf_alloc_sz = 0 ∨ alloc_result = 0) :
    (read_trace_init s circ true false alloc_result supports).1 = false ∧
    (read_trace_init s circ true false alloc_result supports).2.m_initialized
      = false ∧
    (read_trace_init s circ true false alloc_result supports).2.status
      = s.status := by
  unfold read_trace_init init_s2mm reset_s2mm
  simp only [] at *
  rcases hfail with h | h <;> split_ifs <;> simp_all

/-- Claim C4, witness for the amended theorem at a session whose device
buffer allocation returns a null handle. -/
theorem init_failure_sync_witness :
    (read_trace_init (mkOffload 100 1024 5 0) true true false 0 true).1
      = false :=
  (init_failure_sync (mkOffload 100 1024 5 0) true true 0
    (Or.inr rfl)).1

/-- Claim C7, counterexample: with a 4096-byte allocation, the first
cycle configures the window `[0, 512)` and its sync fails, so nothing is
delivered; the claim says those bytes are still offloaded on the next
successful cycle, but the next cycle delivers only `(offset 512,
512 bytes)` — the window had already advanced past the failed window, so
bytes 0..512 are skipped, never handed to the sink. -/
theorem sync_failure_skip_counterexample :
    (read_trace_s2mm (mkOffload 100 4096 0 0) false 64 false).m_trbuf_offset
      = 0 ∧
    (read_trace_s2mm (mkOffload 100 4096 0 0) false 64 false).m_trbuf_sz
      = 512 ∧
    (read_trace_s2mm (mkOffload 100 4096 0 0) false 64 false).s2mm_sink
      = [] ∧
    (read_trace_s2mm
        (read_trace_s2mm (mkOffload 100 4096 0 0) false 64 false)
        false 128 true).s2mm_sink = [(512, 512)] := by decide

/-- Claim C7 (amended): when the device sync yields no valid host
pointer during a stream read cycle that reached the transfer step, the
cycle hands nothing to the sink and the failure is non-fatal — no latch
is set, the status is unchanged, no warning is emitted — and reading
resumes on the next cycle; the resulting state is, however, exactly the
state `config_s2mm_reader` produced, whose window has already advanced,
so the failed window's data is skipped rather than re-read by the next
successful cycle. -/
theorem sync_failure_nonfatal (s : DeviceTraceOffload) (force : Bool)
    (wc : Nat)
    (hthr : force = true ∨
      TS2MM_MIN_READ_SIZE ≤ (wc - s.m_wordcount_old) * TRACE_PACKET_SIZE)
    (hcfg : (config_s2mm_reader { s with m_wordcount_old := wc } wc).1
      = true) :
    read_trace_s2mm s force wc false =
      (config_s2mm_reader { s with m_wordcount_old := wc } wc).2 ∧
    (read_trace_s2mm s force wc false).s2mm_sink = s.s2mm_sink ∧
    (read_trace_s2mm s force wc false).trbuf_offload_done = false ∧
    (read_trace_s2mm s force wc false).status = s.status ∧
    (read_trace_s2mm s force wc false).warn_count = s.warn_count := by
  have hfields :=
    config_true_fields { s with m_wordcount_old := wc } wc hcfg
  have hmain : read_trace_s2mm s force wc false =
      (config_s2mm_reader { s with m_wordcount_old := wc } wc).2 := by
    unfold read_trace_s2mm
    have hskip : ¬ ((!force &&
        decide ((wc - s.m_wordcount_old) * TRACE_PACKET_SIZE
          < TS2MM_MIN_READ_SIZE)) = true) := by
      cases hthr with
      | inl h => simp [h]
      | inr h =>
        simp only [Bool.and_eq_true, decide_eq_true_eq, not_and]
        intro _
        omega
    simp only [] at *
    rw [if_neg hskip]
    rcases hc : config_s2mm_reader { s with m_wordcount_old := wc } wc
      with ⟨b, t⟩
    rw [hc] at hcfg
    simp at hcfg
    subst hcfg
    simp
  refine ⟨hmain, ?_, ?_, ?_, ?_⟩ <;> rw [hmain]
  · exact hfields.2.1
  · exact hfields.1
  · exact hfields.2.2.1
  · exact hfields.2.2.2.1

/-- Claim C7, witness for the amended theorem: the failing first cycle
of the counterexample configuration delivers nothing. -/
theorem sync_failure_nonfatal_witness :
    (read_trace_s2mm (mkOffload 100 4096 0 0) false 64 false).s2mm_sink
      = (mkOffload 100 4096 0 0).s2mm_sink :=
  (sync_failure_nonfatal (mkOffload 100 4096 0 0) false 64
    (Or.inr (by decide)) (by decide)).2.1

/-- Claim C2: a stream read cycle that is not skipped (forced, or at
least the minimum of new bytes) and finds the DMA more than one full
allocation ahead of the reads latches the sticky done/overrun latch,
emits exactly one warning and one user marker, requests the stop
transition (RUNNING becomes STOPPING), transfers nothing to the sink in
that cycle, and no later cycle — forced or not — delivers any data (the
latch is sticky for the rest of the session, covering the final forced
read); moreover the spec's numeric rule holds: written bytes of
`2*allocation + 1` against `allocation` bytes read trigger overrun for
every allocation size. -/
theorem overrun_terminal (s : DeviceTraceOffload) (force : Bool)
    (wc : Nat) (ok : Bool)
    (hdone : s.trbuf_offload_done = false)
    (hrun : s.status = OffloadThreadStatus.RUNNING)
    (hthr : force = true ∨
      TS2MM_MIN_READ_SIZE ≤ (wc - s.m_wordcount_old) * TRACE_PACKET_SIZE)
    (hovr : s2mm_overrun (wc * TRACE_PACKET_SIZE)
      (s.m_rollover_count * s.m_trbuf_alloc_sz + s.m_trbuf_sz)
      s.m_trbuf_alloc_sz = true) :
    (read_trace_s2mm s force wc ok).trbuf_offload_done = true ∧
    (read_trace_s2mm s force wc ok).warn_count = s.warn_count + 1 ∧
    (read_trace_s2mm s force wc ok).marker_count = s.marker_count + 1 ∧
    (read_trace_s2mm s force wc ok).status = OffloadThreadStatus.STOPPING ∧
    (read_trace_s2mm s force wc ok).s2mm_sink = s.s2mm_sink ∧
    (∀ l : List (Bool × Nat × Bool),
      (run_s2mm_cycles (read_trace_s2mm s force wc ok) l).s2mm_sink
        = s.s2mm_sink) ∧
    (∀ a : Nat, s2mm_overrun (2 * a + 1) a a = true) := by
  have hskip : ¬ ((!force &&
      decide ((wc - s.m_wordcount_old) * TRACE_PACKET_SIZE
        < TS2MM_MIN_READ_SIZE)) = true) := by
    cases hthr with
    | inl h => simp [h]
    | inr h =>
      simp only [Bool.and_eq_true, decide_eq_true_eq, not_and]
      intro _
      omega
  have hmain : read_trace_s2mm s force wc ok =
      stop_offload { s with m_wordcount_old := wc
                            m_trbuf_offset := s.m_trbuf_sz
                            trbuf_offload_done := true
                            warn_count := s.warn_count + 1
                            marker_count := s.marker_count + 1 } := by
    unfold read_trace_s2mm config_s2mm_reader
    simp only [] at *
    rw [if_neg hskip]
    simp [hdone, hovr]
  rw [hmain]
  unfold stop_offload
  rw [if_neg (by simp [hrun])]
  refine ⟨rfl, rfl, rfl, rfl, rfl, ?_, ?_⟩
  · intro l
    exact (done_run l _ rfl).2.1
  · intro a
    simp only [s2mm_overrun, decide_eq_true_eq]
    omega

/-- Claim C2, witness: allocation 1024, no bytes read yet and a word
count of 384 (3072 bytes written, more than one allocation beyond the 0
bytes read) trigger the overrun path. -/
theorem overrun_terminal_witness :
    (read_trace_s2mm
        { mkOffload 100 1024 0 0 with status := OffloadThreadStatus.RUNNING }
        false 384 true).warn_count
      = { mkOffload 100 1024 0 0 with
          status := OffloadThreadStatus.RUNNING }.warn_count + 1 :=
  (overrun_terminal
    { mkOffload 100 1024 0 0 with status := OffloadThreadStatus.RUNNING }
    false 384 true (by decide) (by decide) (Or.inr (by decide))
    (by decide)).2.1

/-- The skip guard of `read_trace_s2mm` does not fire when the cycle is
forced or the minimum amount of new data is available. -/
lemma no_skip (force : Bool) (delta : Nat)
    (h : force = true ∨ TS2MM_MIN_READ_SIZE ≤ delta) :
    ¬ ((!force && decide (delta < TS2MM_MIN_READ_SIZE)) = true) := by
  cases h with
  | inl h => simp [h]
  | inr h =>
    simp only [Bool.and_eq_true, decide_eq_true_eq, not_and]
    intro _
    omega

/-- Claim C8: a non-forced stream read cycle with fewer than
`TS2MM_MIN_READ_SIZE` new bytes since the last accepted read is a
complete no-op — the returned state is the input state, so the saved
word count, the window, the rollover count, the latches and the status
are all untouched and the sink receives nothing; any number of
consecutive such cycles is likewise a no-op; and a cycle that crosses
the threshold (and whose window configuration and sync succeed) hands
the sink exactly one batch, the single combined window
`[m_trbuf_offset, m_trbuf_sz)` accumulated since the last accepted
read. -/
theorem below_threshold_skip (s : DeviceTraceOffload) :
    (∀ (wc : Nat) (ok : Bool),
      (wc - s.m_wordcount_old) * TRACE_PACKET_SIZE < TS2MM_MIN_READ_SIZE →
      read_trace_s2mm s false wc ok = s) ∧
    (∀ l : List (Bool × Nat × Bool),
      (∀ e ∈ l, e.1 = false ∧
        (e.2.1 - s.m_wordcount_old) * TRACE_PACKET_SIZE
          < TS2MM_MIN_READ_SIZE) →
      run_s2mm_cycles s l = s) ∧
    (∀ wc : Nat,
      TS2MM_MIN_READ_SIZE ≤ (wc - s.m_wordcount_old) * TRACE_PACKET_SIZE →
      (config_s2mm_reader { s with m_wordcount_old := wc } wc).1 = true →
      (read_trace_s2mm s false wc true).s2mm_sink =
        s.s2mm_sink ++ [((read_trace_s2mm s false wc true).m_trbuf_offset,
          (read_trace_s2mm s false wc true).m_trbuf_sz -
            (read_trace_s2mm s false wc true).m_trbuf_offset)]) := by
  have ha : ∀ (wc : Nat) (ok : Bool),
      (wc - s.m_wordcount_old) * TRACE_PACKET_SIZE < TS2MM_MIN_READ_SIZE →
      read_trace_s2mm s false wc ok = s := by
    intro wc ok h
    unfold read_trace_s2mm
    simp only []
    rw [if_pos (by simp [h])]
  refine ⟨ha, ?_, ?_⟩
  · intro l
    induction l with
    | nil => intro _; rfl
    | cons e rest ih =>
      intro hl
      have he := hl e (List.mem_cons_self e rest)
      rw [run_s2mm_cycles]
      have hid : read_trace_s2mm s e.1 e.2.1 e.2.2 = s := by
        rw [he.1]
        exact ha e.2.1 e.2.2 he.2
      rw [hid]
      exact ih (fun x hx => hl x (List.mem_cons_of_mem e hx))
  · intro wc hthr hcfg
    have hfields :=
      config_true_fields { s with m_wordcount_old := wc } wc hcfg
    unfold read_trace_s2mm
    simp only []
    rw [if_neg (no_skip false _ (Or.inr hthr))]
    rcases hc : config_s2mm_reader { s with m_wordcount_old := wc } wc
      with ⟨b, t⟩
    rw [hc] at hcfg hfields
    simp only [] at hcfg hfields
    subst hcfg
    split <;> simp_all <;> split <;> simp_all

/-- Claim C8, witness: on a fresh 1 MiB session, a cycle that sees 63
new words (504 bytes, below the 512-byte minimum) changes nothing. -/
theorem below_threshold_skip_witness :
    read_trace_s2mm (mkOffload 100 1048576 0 0) false 63 true
      = mkOffload 100 1048576 0 0 :=
  (below_threshold_skip (mkOffload 100 1048576 0 0)).1 63 true (by decide)

/-- Claim C9: in single-pass (non-circular) mode, the cycle whose
advanced window start reaches exactly the allocation size latches
"offload done" and requests stop (RUNNING becomes STOPPING), transfers
nothing and emits no overrun warning; the subsequent final forced read
transfers nothing and emits no warning either, and completing the
worker (`offload_finished`) leaves the session STOPPED.  Together with
the overrun analysis, warnings are only ever emitted on the overrun
branch, which this path never takes. -/
theorem single_pass_done (s : DeviceTraceOffload) (force : Bool)
    (wc : Nat) (ok : Bool)
    (hcirc : s.m_use_circ_buf = false)
    (hdone : s.trbuf_offload_done = false)
    (hend : s.m_trbuf_sz = s.m_trbuf_alloc_sz)
    (hrun : s.status = OffloadThreadStatus.RUNNING)
    (hthr : force = true ∨
      TS2MM_MIN_READ_SIZE ≤ (wc - s.m_wordcount_old) * TRACE_PACKET_SIZE)
    (hnovr : s2mm_overrun (wc * TRACE_PACKET_SIZE)
      (s.m_rollover_count * s.m_trbuf_alloc_sz + s.m_trbuf_sz)
      s.m_trbuf_alloc_sz = false) :
    (read_trace_s2mm s force wc ok).trbuf_offload_done = true ∧
    (read_trace_s2mm s force wc ok).status = OffloadThreadStatus.STOPPING ∧
    (read_trace_s2mm s force wc ok).s2mm_sink = s.s2mm_sink ∧
    (read_trace_s2mm s force wc ok).warn_count = s.warn_count ∧
    (∀ (wc2 : Nat) (ok2 : Bool),
      (read_trace_s2mm (read_trace_s2mm s force wc ok) true wc2 ok2).s2mm_sink
        = s.s2mm_sink ∧
      (read_trace_s2mm (read_trace_s2mm s force wc ok) true wc2 ok2).warn_count
        = s.warn_count ∧
      (offload_finished
          (read_trace_s2mm (read_trace_s2mm s force wc ok) true wc2 ok2)).status
        = OffloadThreadStatus.STOPPED) := by
  have hmain : read_trace_s2mm s force wc ok =
      { s with
        m_wordcount_old := wc
        m_trbuf_offset := s.m_trbuf_sz
        trbuf_offload_done := true
        status := OffloadThreadStatus.STOPPING } := by
    unfold read_trace_s2mm config_s2mm_reader stop_offload
    simp only []
    rw [if_neg (no_skip force _ hthr)]
    rw [hend] at hnovr
    simp [hdone, hnovr, hend, hcirc, hrun]
  rw [hmain]
  refine ⟨rfl, rfl, rfl, rfl, ?_⟩
  intro wc2 ok2
  have hd := done_cycle { s with
      m_wordcount_old := wc
      m_trbuf_offset := s.m_trbuf_sz
      trbuf_offload_done := true
      status := OffloadThreadStatus.STOPPING } rfl true wc2 ok2
  refine ⟨hd.2.1, hd.2.2.1, ?_⟩
  simp [offload_finished, hd.2.2.2]

/-- Claim C9, witness: allocation 1024, window already at the end from
the previous cycle, word count 192 (1536 bytes, no overrun): the cycle
latches done and requests STOPPING. -/
theorem single_pass_done_witness :
    (read_trace_s2mm
        { mkOffload 100 1024 0 0 with
          status := OffloadThreadStatus.RUNNING, m_trbuf_sz := 1024,
          m_wordcount_old := 128 }
        false 192 true).status = OffloadThreadStatus.STOPPING :=
  (single_pass_done
    { mkOffload 100 1024 0 0 with
      status := OffloadThreadStatus.RUNNING, m_trbuf_sz := 1024,
      m_wordcount_old := 128 }
    false 192 true (by decide) (by decide) (by decide) (by decide)
    (Or.inr (by decide)) (by decide)).2.1

/-- `stop_offload` only touches the status field. -/
lemma stop_offload_offset (s : DeviceTraceOffload) :
    (stop_offload s).m_trbuf_offset = s.m_trbuf_offset := by
  unfold stop_offload; split <;> rfl

/-- `stop_offload` only touches the status field. -/
lemma stop_offload_sz (s : DeviceTraceOffload) :
    (stop_offload s).m_trbuf_sz = s.m_trbuf_sz := by
  unfold stop_offload; split <;> rfl

/-- `stop_offload` only touches the status field. -/
lemma stop_offload_rollover (s : DeviceTraceOffload) :
    (stop_offload s).m_rollover_count = s.m_rollover_count := by
  unfold stop_offload; split <;> rfl

/-- `stop_offload` only touches the status field. -/
lemma stop_offload_alloc (s : DeviceTraceOffload) :
    (stop_offload s).m_trbuf_alloc_sz = s.m_trbuf_alloc_sz := by
  unfold stop_offload; split <;> rfl

/-- `stop_offload` only touches the status field. -/
lemma stop_offload_wcold (s : DeviceTraceOffload) :
    (stop_offload s).m_wordcount_old = s.m_wordcount_old := by
  unfold stop_offload; split <;> rfl

/-- Claim C3: one stream read cycle preserves the window invariant
(window end within the allocation, window start at most the window end,
so `offset + size ≤ allocation_size`), provided the device word counter
did not decrease; the rollover counter never decreases and grows by at
most one per cycle; and it grows by exactly one precisely when the cycle
is not skipped, the done latch is clear, there is no overrun, the
advanced window start reaches exactly the allocation size and circular
mode is on — in which case the window start wraps back to zero. -/
theorem window_rollover_invariant (s : DeviceTraceOffload) (force : Bool)
    (wc : Nat) (ok : Bool)
    (hInv : s2mmInv s) (hmono : s.m_wordcount_old ≤ wc) :
    s2mmInv (read_trace_s2mm s force wc ok) ∧
    s.m_rollover_count ≤ (read_trace_s2mm s force wc ok).m_rollover_count ∧
    (read_trace_s2mm s force wc ok).m_rollover_count
      ≤ s.m_rollover_count + 1 ∧
    ((read_trace_s2mm s force wc ok).m_rollover_count
        = s.m_rollover_count + 1 ↔
      ((force = true ∨
          TS2MM_MIN_READ_SIZE ≤
            (wc - s.m_wordcount_old) * TRACE_PACKET_SIZE) ∧
        s.trbuf_offload_done = false ∧
        s2mm_overrun (wc * TRACE_PACKET_SIZE)
          (s.m_rollover_count * s.m_trbuf_alloc_sz + s.m_trbuf_sz)
          s.m_trbuf_alloc_sz = false ∧
        s.m_trbuf_sz = s.m_trbuf_alloc_sz ∧
        s.m_use_circ_buf = true)) ∧
    ((read_trace_s2mm s force wc ok).m_rollover_count
        = s.m_rollover_count + 1 →
      (read_trace_s2mm s force wc ok).m_trbuf_offset = 0) := by
  obtain ⟨h1, h2, h3⟩ := hInv
  have hmono8 : s.m_wordcount_old * TRACE_PACKET_SIZE
      ≤ wc * TRACE_PACKET_SIZE := Nat.mul_le_mul_right _ hmono
  unfold s2mmInv read_trace_s2mm config_s2mm_reader
  simp only []
  by_cases hsk : (!force && decide
      ((wc - s.m_wordcount_old) * TRACE_PACKET_SIZE < TS2MM_MIN_READ_SIZE))
      = true
  · rw [if_pos hsk]
    simp only [Bool.and_eq_true, Bool.not_eq_true', decide_eq_true_eq] at hsk
    refine ⟨⟨h1, h2, h3⟩, Nat.le_refl _, by omega, ?_, by omega⟩
    constructor
    · intro h; omega
    · rintro ⟨hA, -, -, -, -⟩
      rcases hA with hA | hA
      · rw [hA] at hsk; simp at hsk
      · omega
  · rw [if_neg hsk]
    have hsk2 : force = true ∨
        TS2MM_MIN_READ_SIZE ≤
          (wc - s.m_wordcount_old) * TRACE_PACKET_SIZE := by
      by_cases hf : force = true
      · exact Or.inl hf
      · right
        simp only [Bool.not_eq_true] at hf
        simp [hf] at hsk
        omega
    by_cases hdone : s.trbuf_offload_done = true
    · simp [hdone]
      exact ⟨h1, h2, by omega⟩
    · by_cases hovr : s2mm_overrun (wc * TRACE_PACKET_SIZE)
          (s.m_rollover_count * s.m_trbuf_alloc_sz + s.m_trbuf_sz)
          s.m_trbuf_alloc_sz = true
      · simp [hdone, hovr, stop_offload_offset, stop_offload_sz,
          stop_offload_rollover, stop_offload_alloc, stop_offload_wcold]
        exact ⟨h1, by omega⟩
      · by_cases hend : s.m_trbuf_sz = s.m_trbuf_alloc_sz
        · by_cases hcirc : s.m_use_circ_buf = true
          · rw [hend] at hovr
            have hsucc : (s.m_rollover_count + 1) * s.m_trbuf_alloc_sz =
                s.m_rollover_count * s.m_trbuf_alloc_sz
                  + s.m_trbuf_alloc_sz := by
              ring
            simp [hdone, hovr, hend, hcirc, hsk2]
            split_ifs <;> simp <;> omega
          · rw [hend] at hovr
            simp [hdone, hovr, hend, hcirc, stop_offload_offset,
              stop_offload_sz, stop_offload_rollover, stop_offload_alloc,
              stop_offload_wcold]
            omega
        · simp [hdone, hovr, hend]
          split_ifs <;> simp <;> omega

/-- Claim C3, witness: a fresh 4096-byte session (invariant holds
trivially) reading 64 words keeps the invariant. -/
theorem window_rollover_invariant_witness :
    s2mmInv (read_trace_s2mm (mkOffload 100 4096 0 0) false 64 true) :=
  (window_rollover_invariant (mkOffload 100 4096 0 0) false 64 true
    (by unfold s2mmInv; decide) (by decide)).1

end XRT
